import Mathlib

/-!
Verification of the Network Activity Ledger & Adaptive Body Renderer
(`packages/playwright/src/mcp/browser/tools/network.ts`).

The file shallowly embeds the two tools defined there:

* `browser_network_requests` — its filtering step (`requests.handle`,
  lines 42–52) and its zod input-schema defaults (lines 31–34);
* `browser_get_network_response` — its lookup / classification / truncation
  pipeline (`getResponse.handle`, lines 117–165), together with the helper
  functions `truncateText` (lines 73–78) and `truncateJson` (lines 80–104).

External accessors that live outside this repository (the `playwright-core`
mime-type classifiers, `JSON.stringify`, `Buffer#toString('utf-8')`) are
taken as parameters of the embedded functions, so every theorem quantifies
over them.
-/

namespace NetworkTools

/-- Decoded JSON values, as produced by `res.json()`.  Scalars other than
strings (numbers, booleans, null) are all treated alike by `truncateJson`
(`typeof value !== 'object'`), so the number representation is irrelevant. -/
inductive Json where
  | null : Json
  | bool : Bool → Json
  | num : Int → Json
  | str : String → Json
  | arr : List Json → Json
  | obj : List (String × Json) → Json
deriving Repr

/-- The `options` record of `truncateJson` (network.ts line 80). -/
structure TruncateOptions where
  maxArrayLength : Nat
  maxStringLength : Nat
deriving Repr, DecidableEq

/-- The trailing element pushed for an over-long array
(network.ts line 87): `` `... (truncated, original length: ${value.length})` ``. -/
def arrayAnnot (origLen : Nat) : String :=
  "... (truncated, original length: " ++ toString origLen ++ ")"

/-- The suffix appended to an over-long string property value
(network.ts line 98): `` `... (string truncated, original length: ${propValue.length})` ``. -/
def stringAnnot (origLen : Nat) : String :=
  "... (string truncated, original length: " ++ toString origLen ++ ")"

/-- The test `typeof propValue === 'string' && propValue.length > options.maxStringLength`
of network.ts line 97. -/
def isLongString (opts : TruncateOptions) : Json → Bool
  | .str s => s.length > opts.maxStringLength
  | _ => false

/-- The replacement value built on network.ts line 98:
`propValue.substring(0, options.maxStringLength) + stringAnnot`. -/
def longStringTrunc (opts : TruncateOptions) : Json → Json
  | .str s => .str (s.take opts.maxStringLength ++ stringAnnot s.length)
  | v => v

theorem sizeOf_take_le (l : List Json) (n : Nat) : sizeOf (l.take n) ≤ sizeOf l := by
  induction l generalizing n with
  | nil => cases n <;> simp
  | cons x xs ih =>
    cases n with
    | zero => simp; omega
    | succ m =>
      simp only [List.take_succ_cons, List.cons.sizeOf_spec]
      have := ih m
      omega

theorem sizeOf_take_lt_one_add (n : Nat) (l : List Json) :
    sizeOf (List.take n l) < 1 + sizeOf l := by
  have := sizeOf_take_le l n
  omega

mutual

/-- Shallow embedding of `truncateJson` (network.ts lines 80–104).
Non-objects are returned unchanged (lines 81–82); over-long arrays keep the
first `maxArrayLength` elements, each recursively truncated, plus the
`arrayAnnot` string (lines 85–88); other arrays are mapped recursively
(line 90); objects keep every own key, truncating over-long string values
and recursing into everything else (lines 93–103). -/
def truncateJson (opts : TruncateOptions) : Json → Json
  | .null => .null
  | .bool b => .bool b
  | .num n => .num n
  | .str s => .str s
  | .arr items =>
    if items.length > opts.maxArrayLength then
      .arr (truncateJsonList opts (items.take opts.maxArrayLength) ++
        [.str (arrayAnnot items.length)])
    else
      .arr (truncateJsonList opts items)
  | .obj fields => .obj (truncateJsonFields opts fields)
termination_by j => sizeOf j
decreasing_by
  all_goals simp_wf
  all_goals exact sizeOf_take_lt_one_add _ _

/-- Elementwise recursion over an array's elements (`value.map(item => truncateJson(item, options))`). -/
def truncateJsonList (opts : TruncateOptions) : List Json → List Json
  | [] => []
  | x :: xs => truncateJson opts x :: truncateJsonList opts xs
termination_by l => sizeOf l
decreasing_by
  all_goals simp_wf <;> omega

/-- The `for (const key in value)` loop of network.ts lines 94–102:
every own key is kept; an over-long string value is cut and annotated,
any other value recurses through `truncateJson`. -/
def truncateJsonFields (opts : TruncateOptions) :
    List (String × Json) → List (String × Json)
  | [] => []
  | (k, v) :: rest =>
    (if isLongString opts v then (k, longStringTrunc opts v)
     else (k, truncateJson opts v)) :: truncateJsonFields opts rest
termination_by l => sizeOf l
decreasing_by
  all_goals simp_wf <;> omega

end

/-- `truncateJsonList` is just `List.map (truncateJson opts)`. -/
theorem truncateJsonList_eq_map (opts : TruncateOptions) (l : List Json) :
    truncateJsonList opts l = l.map (truncateJson opts) := by
  induction l with
  | nil => simp [truncateJsonList]
  | cons x xs ih => simp [truncateJsonList, ih]

/-- `const maxBodySize = 2048` (network.ts line 74). -/
def maxBodySize : Nat := 2048

/-- The annotation appended by `truncateText` (network.ts line 76):
`` `\n\n... (response body truncated, size: ${body.length} bytes)` ``. -/
def bodySizeAnnot (origLen : Nat) : String :=
  "\n\n... (response body truncated, size: " ++ toString origLen ++ " bytes)"

/-- Shallow embedding of `truncateText` (network.ts lines 73–78).  A `Buffer`
is a list of byte values; `Buffer#toString('utf-8')` is the external decoder
`decode`, passed as a parameter. -/
def truncateText (decode : List Nat → String) (body : List Nat) : String :=
  if body.length > maxBodySize then
    decode (body.take maxBodySize) ++ bodySizeAnnot body.length
  else
    decode body

/-- `const maxJsonSize = 8192` (network.ts line 147). -/
def maxJsonSize : Nat := 8192

/-- The annotation appended when the serialized JSON exceeds `maxJsonSize`
(network.ts line 149):
`` `\n\n... (JSON response truncated, total size: ${resultString.length} bytes)` ``.
In the source the template literal is evaluated before `resultString` is
reassigned, so the recorded size is the pre-truncation serialized length. -/
def jsonSizeAnnot (origLen : Nat) : String :=
  "\n\n... (JSON response truncated, total size: " ++ toString origLen ++ " bytes)"

/-- The serialized-size ceiling applied on network.ts lines 146–149 to the
output of `JSON.stringify(truncated)`. -/
def capSerialized (s : String) : String :=
  if s.length > maxJsonSize then s.take maxJsonSize ++ jsonSizeAnnot s.length
  else s

/-- The options passed to `truncateJson` by `getResponse.handle`
(network.ts line 145): `{ maxArrayLength: 5, maxStringLength: 300 }`. -/
def jsonOpts : TruncateOptions := { maxArrayLength := 5, maxStringLength := 300 }

/-- One attached response, as the renderer sees it.  The three accessors
`allHeaders()`, `body()` and `json()` are asynchronous and fallible; a
`.error msg` value models a rejected promise whose `e.message` is `msg`. -/
structure ExchangeResponse where
  status : Nat
  allHeaders : Except String (List (String × String))
  body : Except String (List Nat)
  json : Except String Json

/-- One ledger entry: a request (identified by its `_guid`) paired with its
optional response — one `[playwright.Request, playwright.Response | null]`
entry of `tab.requests().entries()`. -/
structure Exchange where
  id : String
  method : String
  url : String
  resourceType : String
  postData : Option String
  response : Option ExchangeResponse

/-- The zod input of `browser_network_requests` (network.ts lines 31–34). -/
structure FilterCriteria where
  methods : List String
  resourceTypes : List String

/-- `methods: z.array(z.string()).optional().default([])` (network.ts line 32). -/
def defaultMethods : List String := []

/-- `resourceTypes: z.array(z.string()).optional().default(['xhr', 'fetch', 'document'])`
(network.ts line 33). -/
def defaultResourceTypes : List String := ["xhr", "fetch", "document"]

/-- The criteria seen by `requests.handle` when the caller omits both
parameters: zod fills in the two defaults above. -/
def defaultCriteria : FilterCriteria :=
  { methods := defaultMethods, resourceTypes := defaultResourceTypes }

/-- Shallow embedding of the filtering step of `requests.handle`
(network.ts lines 39–52): start from all entries; if either criteria list is
non-empty, keep an entry when the methods list is non-empty and contains its
method, or the resourceTypes list is non-empty and contains its resource
type; otherwise keep everything. -/
def selectRequests (entries : List Exchange) (c : FilterCriteria) : List Exchange :=
  if c.methods.length > 0 || c.resourceTypes.length > 0 then
    entries.filter fun e =>
      if c.methods.length > 0 && c.methods.contains e.method then true
      else if c.resourceTypes.length > 0 && c.resourceTypes.contains e.resourceType then true
      else false
  else
    entries

/-- The Filter Engine contract, written from the spec's words (§4.2): if both
constraint sets are empty all entries pass; otherwise an entry passes iff its
method is in the non-empty methods set or its resourceType is in the
non-empty resourceTypes set, preserving ledger order. -/
def selectSpec (entries : List Exchange) (c : FilterCriteria) : List Exchange :=
  if c.methods = [] ∧ c.resourceTypes = [] then entries
  else entries.filter fun e =>
    decide ((c.methods ≠ [] ∧ e.method ∈ c.methods) ∨
      (c.resourceTypes ≠ [] ∧ e.resourceType ∈ c.resourceTypes))

/-- `(headers['content-type'] || '').toLowerCase()` (network.ts line 140),
over an association list of headers. -/
def getContentType (headers : List (String × String)) : String :=
  ((headers.lookup "content-type").getD "").toLower

/-- What `getResponse.handle` emits through its `response` sink: exactly one
of `addResult`, `addImage` or `addError` fires per invocation. -/
inductive RenderOutcome where
  | result : String → RenderOutcome
  | image : String → List Nat → RenderOutcome
  | error : String → RenderOutcome
deriving Repr, DecidableEq

/-- The asynchronous accessors a render awaits, in the order it awaits them.
An empty trace means neither headers nor body (nor a structured decode)
were ever fetched. -/
inductive FetchEvent where
  | headers : FetchEvent
  | json : FetchEvent
  | body : FetchEvent
deriving Repr, DecidableEq

/-- The outer-catch error of network.ts line 163:
`` `Could not retrieve body for request ${request_id}: ${e.message}` ``. -/
def fetchErrMsg (rid : String) (msg : String) : String :=
  "Could not retrieve body for request " ++ rid ++ ": " ++ msg

/-- The lookup loop of network.ts lines 120–125: first entry whose `_guid`
equals `request_id`. -/
def lookupRequest (entries : List Exchange) (rid : String) : Option Exchange :=
  entries.find? fun e => e.id == rid

/-- Shallow embedding of `getResponse.handle` (network.ts lines 117–165).
`isJson` and `isText` stand for the imported `isJsonMimeType` and
`isTextualMimeType`; `serialize` for `JSON.stringify`; `decode` for
`Buffer#toString('utf-8')`.  The result carries the single emitted outcome,
the trace of awaited accessors, and the ledger as left behind (the handler
never writes to it, which the embedding makes explicit by returning it). -/
def getResponseHandle (isJson isText : String → Bool)
    (serialize : Json → String) (decode : List Nat → String)
    (entries : List Exchange) (rid : String) :
    RenderOutcome × List FetchEvent × List Exchange :=
  match lookupRequest entries rid with
  | none => (.error ("Request with id " ++ rid ++ " not found."), [], entries)
  | some e =>
    match e.response with
    | none =>
      (.error ("Request with id " ++ rid ++ " does not have a response."), [], entries)
    | some res =>
      match res.allHeaders with
      | .error msg => (.error (fetchErrMsg rid msg), [.headers], entries)
      | .ok headers =>
        let contentType := getContentType headers
        if isJson contentType then
          match res.json with
          | .ok j =>
            (.result (capSerialized (serialize (truncateJson jsonOpts j))),
              [.headers, .json], entries)
          | .error _ =>
            match res.body with
            | .ok b =>
              (.result (truncateText decode b), [.headers, .json, .body], entries)
            | .error msg =>
              (.error (fetchErrMsg rid msg), [.headers, .json, .body], entries)
        else if isText contentType then
          match res.body with
          | .ok b => (.result (truncateText decode b), [.headers, .body], entries)
          | .error msg => (.error (fetchErrMsg rid msg), [.headers, .body], entries)
        else if contentType.startsWith "image/" then
          match res.body with
          | .ok b => (.image contentType b, [.headers, .body], entries)
          | .error msg => (.error (fetchErrMsg rid msg), [.headers, .body], entries)
        else
          (.result ("Response body is binary content of type \"" ++ contentType ++
            "\" and cannot be displayed as text."), [.headers], entries)

/-! ## Helper lemmas -/

/-- The filtering predicate of `requests.handle` agrees pointwise with the
spec's disjunctive predicate. -/
theorem selectPred_eq (c : FilterCriteria) (e : Exchange) :
    (if c.methods.length > 0 && c.methods.contains e.method then true
     else if c.resourceTypes.length > 0 && c.resourceTypes.contains e.resourceType then true
     else false)
    = decide ((c.methods ≠ [] ∧ e.method ∈ c.methods) ∨
        (c.resourceTypes ≠ [] ∧ e.resourceType ∈ c.resourceTypes)) := by
  cases c.methods <;> cases c.resourceTypes <;>
    simp [List.elem_iff, List.contains]

/-! ## Claims -/

/-- **C1.** For every ledger snapshot and filter criteria: if both the
methods set and the resourceTypes set are empty, `select` returns all entries
in original order; if at least one set is non-empty, an entry is returned iff
its method is in the (non-empty) methods set or its resourceType is in the
(non-empty) resourceTypes set, preserving ledger order.  Stated as: the
embedded filtering step of `requests.handle` coincides with the spec's
`selectSpec` on every input, and its output is always a sublist (order
preserved) of the ledger snapshot. -/
theorem C1_select_matches_spec (entries : List Exchange) (c : FilterCriteria) :
    selectRequests entries c = selectSpec entries c ∧
    (selectRequests entries c).Sublist entries := by
  constructor
  · unfold selectRequests selectSpec
    by_cases hb : c.methods = [] ∧ c.resourceTypes = []
    · obtain ⟨hm, hr⟩ := hb
      simp [hm, hr]
    · have hcond : (c.methods.length > 0 || c.resourceTypes.length > 0) = true := by
        rcases not_and_or.mp hb with h | h
        · cases hc : c.methods with
          | nil => exact absurd hc h
          | cons x xs => simp [hc]
        · cases hc : c.resourceTypes with
          | nil => exact absurd hc h
          | cons x xs => simp [hc]
      rw [if_pos hcond, if_neg hb]
      exact List.filter_congr fun e _ => selectPred_eq c e
  · unfold selectRequests
    by_cases h : (c.methods.length > 0 || c.resourceTypes.length > 0) = true
    · rw [if_pos h]; exact List.filter_sublist _
    · rw [if_neg h]

/-- **C10.** With the zod defaults (`methods = []`,
`resourceTypes = ['xhr','fetch','document']`), the list operation filters:
it returns exactly the entries whose resourceType is xhr, fetch or document,
not all ledger entries. -/
theorem C10_default_criteria_filters (entries : List Exchange) :
    defaultResourceTypes = ["xhr", "fetch", "document"] ∧
    defaultMethods = [] ∧
    selectRequests entries defaultCriteria =
      entries.filter fun e => defaultResourceTypes.contains e.resourceType := by
  refine ⟨rfl, rfl, ?_⟩
  unfold selectRequests defaultCriteria defaultMethods defaultResourceTypes
  simp only [List.length_nil, List.length_cons]
  rw [if_pos (by simp)]
  exact List.filter_congr fun e _ => by simp

/-- **C2.** For every array value with more than `maxArrayLength` elements,
`truncateJson` returns the first `maxArrayLength` elements, each recursively
truncated, followed by exactly one trailing string element annotating the
original length. -/
theorem C2_array_truncation (opts : TruncateOptions) (items : List Json)
    (h : items.length > opts.maxArrayLength) :
    truncateJson opts (.arr items) =
      .arr ((items.take opts.maxArrayLength).map (truncateJson opts) ++
        [.str (arrayAnnot items.length)]) ∧
    ((items.take opts.maxArrayLength).map (truncateJson opts)).length =
      opts.maxArrayLength := by
  constructor
  · simp only [truncateJson]
    rw [if_pos h, truncateJsonList_eq_map]
  · rw [List.length_map, List.length_take]
    omega

/-- **C2 witness.** An 8-element array with `maxArrayLength = 5` yields the
5 truncated elements plus one annotation element stating "original length: 8". -/
theorem C2_array_truncation_witness :
    ([Json.num 0, Json.num 1, Json.num 2, Json.num 3, Json.num 4, Json.num 5,
      Json.num 6, Json.num 7].length > (5 : Nat)) ∧
    truncateJson ⟨5, 300⟩
        (Json.arr [Json.num 0, Json.num 1, Json.num 2, Json.num 3, Json.num 4,
          Json.num 5, Json.num 6, Json.num 7]) =
      Json.arr [Json.num 0, Json.num 1, Json.num 2, Json.num 3, Json.num 4,
        Json.str "... (truncated, original length: 8)"] := by
  refine ⟨by decide, ?_⟩
  have h := (C2_array_truncation ⟨5, 300⟩
    [Json.num 0, Json.num 1, Json.num 2, Json.num 3, Json.num 4, Json.num 5,
      Json.num 6, Json.num 7] (by decide)).1
  rw [h]
  simp only [List.take, List.map, truncateJson, List.append_eq, List.nil_append,
    List.cons_append, arrayAnnot]
  norm_num
  decide

/-- **C3 counterexample.** A top-level string longer than `maxStringLength`
is returned unchanged by `truncateJson` — not cut to its prefix plus an
annotation, contrary to the claim that over-long strings are truncated
wherever they appear. -/
theorem C3_counterexample :
    ("abcdefgh".length > (3 : Nat)) ∧
    truncateJson ⟨5, 3⟩ (Json.str "abcdefgh") = Json.str "abcdefgh" ∧
    Json.str "abcdefgh" ≠
      Json.str ("abcdefgh".take 3 ++ stringAnnot "abcdefgh".length) := by
  refine ⟨by decide, by simp [truncateJson], ?_⟩
  simp only [ne_eq, Json.str.injEq]
  decide

/-- **C3 (amended).** String truncation applies exactly to mapping values: a
string longer than `maxStringLength` is replaced by its prefix plus an
annotation when it appears as a mapping value, but is returned unchanged at
top level and as an array element. -/
theorem C3_string_truncation_amended (opts : TruncateOptions) (s k : String)
    (h : s.length > opts.maxStringLength) (ha : 1 ≤ opts.maxArrayLength) :
    truncateJson opts (.str s) = .str s ∧
    truncateJson opts (.arr [.str s]) = .arr [.str s] ∧
    truncateJson opts (.obj [(k, .str s)]) =
      .obj [(k, .str (s.take opts.maxStringLength ++ stringAnnot s.length))] := by
  refine ⟨by simp [truncateJson], ?_, ?_⟩
  · simp only [truncateJson]
    rw [if_neg (by simp; omega)]
    simp [truncateJsonList, truncateJson]
  · simp only [truncateJson, truncateJsonFields]
    rw [if_pos (by simp [isLongString, h])]
    simp [longStringTrunc]

/-- **C3 amended witness.** Concrete instance: with `maxStringLength = 3`,
the 8-character string "abcdefgh" survives unchanged at top level and inside
an array, and becomes "abc" plus the annotation as a mapping value. -/
theorem C3_string_truncation_amended_witness :
    ("abcdefgh".length > (3 : Nat)) ∧ ((1 : Nat) ≤ 5) ∧
    (truncateJson ⟨5, 3⟩ (Json.str "abcdefgh") = Json.str "abcdefgh" ∧
     truncateJson ⟨5, 3⟩ (Json.arr [Json.str "abcdefgh"]) =
       Json.arr [Json.str "abcdefgh"] ∧
     truncateJson ⟨5, 3⟩ (Json.obj [("k", Json.str "abcdefgh")]) =
       Json.obj [("k", Json.str ("abcdefgh".take 3 ++ stringAnnot "abcdefgh".length))]) :=
  ⟨by decide, by decide,
    C3_string_truncation_amended ⟨5, 3⟩ "abcdefgh" "k" (by decide) (by decide)⟩

/-- **C4.** In the structured path, after `truncateJson` the result is
serialized; a serialized form longer than `maxJsonSize = 8192` is cut to its
first 8192 units with an annotation carrying the pre-truncation serialized
length appended, and a serialized form at or under the ceiling is emitted
unchanged. -/
theorem C4_serialized_ceiling (isJson isText : String → Bool)
    (serialize : Json → String) (decode : List Nat → String)
    (entries : List Exchange) (rid : String) (e : Exchange)
    (res : ExchangeResponse) (headers : List (String × String)) (j : Json)
    (h1 : lookupRequest entries rid = some e)
    (h2 : e.response = some res)
    (h3 : res.allHeaders = .ok headers)
    (h4 : isJson (getContentType headers) = true)
    (h5 : res.json = .ok j) :
    (getResponseHandle isJson isText serialize decode entries rid).1 =
      .result (capSerialized (serialize (truncateJson jsonOpts j))) ∧
    ((serialize (truncateJson jsonOpts j)).length ≤ maxJsonSize →
      capSerialized (serialize (truncateJson jsonOpts j)) =
        serialize (truncateJson jsonOpts j)) ∧
    ((serialize (truncateJson jsonOpts j)).length > maxJsonSize →
      capSerialized (serialize (truncateJson jsonOpts j)) =
        (serialize (truncateJson jsonOpts j)).take maxJsonSize ++
          jsonSizeAnnot (serialize (truncateJson jsonOpts j)).length) := by
  refine ⟨?_, ?_, ?_⟩
  · simp [getResponseHandle, h1, h2, h3, h4, h5]
  · intro hle
    unfold capSerialized
    rw [if_neg (by omega)]
  · intro hgt
    unfold capSerialized
    rw [if_pos hgt]

/-- **C4 witness.** A concrete render through the structured path: the
serialized form is under the ceiling, so it is emitted unchanged. -/
theorem C4_serialized_ceiling_witness :
    lookupRequest
        [⟨"r1", "GET", "u", "xhr", none,
          some ⟨200, .ok [("content-type", "application/json")], .ok [],
            .ok (Json.num 1)⟩⟩] "r1" =
      some ⟨"r1", "GET", "u", "xhr", none,
        some ⟨200, .ok [("content-type", "application/json")], .ok [],
          .ok (Json.num 1)⟩⟩ ∧
    ((getResponseHandle (fun _ => true) (fun _ => false)
          (fun _ => "1") (fun _ => "")
          [⟨"r1", "GET", "u", "xhr", none,
            some ⟨200, .ok [("content-type", "application/json")], .ok [],
              .ok (Json.num 1)⟩⟩] "r1").1 =
        .result (capSerialized ((fun _ => "1") (truncateJson jsonOpts (Json.num 1)))) ∧
      (((fun _ : Json => "1") (truncateJson jsonOpts (Json.num 1))).length ≤ maxJsonSize →
        capSerialized ((fun _ : Json => "1") (truncateJson jsonOpts (Json.num 1))) =
          (fun _ : Json => "1") (truncateJson jsonOpts (Json.num 1)))) := by
  refine ⟨rfl, ?_⟩
  have h := C4_serialized_ceiling (fun _ => true) (fun _ => false)
    (fun _ => "1") (fun _ => "")
    [⟨"r1", "GET", "u", "xhr", none,
      some ⟨200, .ok [("content-type", "application/json")], .ok [],
        .ok (Json.num 1)⟩⟩] "r1"
    ⟨"r1", "GET", "u", "xhr", none,
      some ⟨200, .ok [("content-type", "application/json")], .ok [],
        .ok (Json.num 1)⟩⟩
    ⟨200, .ok [("content-type", "application/json")], .ok [], .ok (Json.num 1)⟩
    [("content-type", "application/json")] (Json.num 1)
    rfl rfl rfl rfl rfl
  exact ⟨h.1, h.2.1⟩

/-- **C5.** `truncateJson` on a mapping returns a mapping with exactly the
same own keys, in the same order — keys are never dropped, renamed or
truncated.  Quantifying over every field list covers mappings at any nesting
depth, since nested mappings are processed by the same recursive call. -/
theorem C5_obj_keys_preserved (opts : TruncateOptions)
    (fields : List (String × Json)) :
    ∃ fields2, truncateJson opts (.obj fields) = .obj fields2 ∧
      fields2.map Prod.fst = fields.map Prod.fst := by
  refine ⟨truncateJsonFields opts fields, by simp [truncateJson], ?_⟩
  induction fields with
  | nil => simp [truncateJsonFields]
  | cons kv rest ih =>
    obtain ⟨k, v⟩ := kv
    simp only [truncateJsonFields]
    cases h : isLongString opts v <;> simp [h, ih]

/-- **C6.** `truncateText` on a buffer of at most `maxBodySize = 2048` bytes
returns the full decoded content unchanged; on a longer buffer it returns
the decoded prefix of exactly 2048 bytes followed by a deterministic
annotation containing the original byte length. -/
theorem C6_truncateText (decode : List Nat → String) (b : List Nat) :
    (b.length ≤ maxBodySize → truncateText decode b = decode b) ∧
    (b.length > maxBodySize →
      truncateText decode b = decode (b.take maxBodySize) ++ bodySizeAnnot b.length ∧
      (b.take maxBodySize).length = maxBodySize) := by
  constructor
  · intro h
    unfold truncateText
    rw [if_neg (by omega)]
  · intro h
    unfold truncateText
    refine ⟨by rw [if_pos h], ?_⟩
    rw [List.length_take]
    omega

/-- **C6 witness.** A 3-byte buffer is decoded unchanged; a 2049-byte buffer
is cut to its 2048-byte decoded prefix plus the size annotation. -/
theorem C6_truncateText_witness :
    (([0, 1, 2] : List Nat).length ≤ maxBodySize ∧
      truncateText (fun l => toString l.length) [0, 1, 2] =
        (fun l : List Nat => toString l.length) [0, 1, 2]) ∧
    ((List.replicate 2049 (0 : Nat)).length > maxBodySize ∧
      truncateText (fun l => toString l.length) (List.replicate 2049 0) =
        (fun l : List Nat => toString l.length)
            ((List.replicate 2049 (0 : Nat)).take maxBodySize) ++
          bodySizeAnnot (List.replicate 2049 (0 : Nat)).length ∧
      ((List.replicate 2049 (0 : Nat)).take maxBodySize).length = maxBodySize) := by
  constructor
  · exact ⟨by decide, (C6_truncateText (fun l => toString l.length) [0, 1, 2]).1 (by decide)⟩
  · have h : (List.replicate 2049 (0 : Nat)).length > maxBodySize := by
      rw [List.length_replicate]
      decide
    have h2 := (C6_truncateText (fun l => toString l.length) (List.replicate 2049 0)).2 h
    exact ⟨h, h2.1, h2.2⟩

/-- **C7.** An unknown identifier terminates the render with the not-found
error naming the identifier; a known identifier with no attached response
terminates with the no-response error.  In both cases the accessor trace is
empty (no headers or body fetched) and the ledger is returned unchanged. -/
theorem C7_resolve_errors (isJson isText : String → Bool)
    (serialize : Json → String) (decode : List Nat → String)
    (entries : List Exchange) (rid : String) :
    (lookupRequest entries rid = none →
      getResponseHandle isJson isText serialize decode entries rid =
        (.error ("Request with id " ++ rid ++ " not found."), [], entries)) ∧
    (∀ e, lookupRequest entries rid = some e → e.response = none →
      getResponseHandle isJson isText serialize decode entries rid =
        (.error ("Request with id " ++ rid ++ " does not have a response."), [],
          entries)) := by
  constructor
  · intro h
    simp [getResponseHandle, h]
  · intro e h1 h2
    simp [getResponseHandle, h1, h2]

/-- **C7 witness.** The spec scenario: a ledger holding one pending GET
document exchange "r1".  Rendering "missing" reports not-found; rendering
"r1" reports no-response; both leave an empty accessor trace and the ledger
untouched. -/
theorem C7_resolve_errors_witness :
    lookupRequest [⟨"r1", "GET", "u", "document", none, none⟩] "missing" = none ∧
    getResponseHandle (fun _ => true) (fun _ => false) (fun _ => "") (fun _ => "")
        [⟨"r1", "GET", "u", "document", none, none⟩] "missing" =
      (.error "Request with id missing not found.", [],
        [⟨"r1", "GET", "u", "document", none, none⟩]) ∧
    lookupRequest [⟨"r1", "GET", "u", "document", none, none⟩] "r1" =
      some ⟨"r1", "GET", "u", "document", none, none⟩ ∧
    getResponseHandle (fun _ => true) (fun _ => false) (fun _ => "") (fun _ => "")
        [⟨"r1", "GET", "u", "document", none, none⟩] "r1" =
      (.error "Request with id r1 does not have a response.", [],
        [⟨"r1", "GET", "u", "document", none, none⟩]) := by
  refine ⟨rfl, ?_, rfl, ?_⟩
  · exact (C7_resolve_errors (fun _ => true) (fun _ => false) (fun _ => "")
      (fun _ => "") [⟨"r1", "GET", "u", "document", none, none⟩] "missing").1 rfl
  · exact (C7_resolve_errors (fun _ => true) (fun _ => false) (fun _ => "")
      (fun _ => "") [⟨"r1", "GET", "u", "document", none, none⟩] "r1").2
      ⟨"r1", "GET", "u", "document", none, none⟩ rfl rfl

/-- **C8.** When the content type classifies as structured but the
structured decode fails, the render recovers by emitting the raw body
through `truncateText` as a result — not an error — after having attempted
headers, decode and body in that order. -/
theorem C8_decode_failure_fallback (isJson isText : String → Bool)
    (serialize : Json → String) (decode : List Nat → String)
    (entries : List Exchange) (rid : String) (e : Exchange)
    (res : ExchangeResponse) (headers : List (String × String))
    (msg : String) (b : List Nat)
    (h1 : lookupRequest entries rid = some e)
    (h2 : e.response = some res)
    (h3 : res.allHeaders = .ok headers)
    (h4 : isJson (getContentType headers) = true)
    (h5 : res.json = .error msg)
    (h6 : res.body = .ok b) :
    getResponseHandle isJson isText serialize decode entries rid =
      (.result (truncateText decode b), [.headers, .json, .body], entries) := by
  simp [getResponseHandle, h1, h2, h3, h4, h5, h6]

/-- **C8 witness.** A concrete structured-classified response whose decode
fails: the raw 3-byte body is emitted through `truncateText`. -/
theorem C8_decode_failure_fallback_witness :
    lookupRequest
        [⟨"r1", "GET", "u", "xhr", none,
          some ⟨200, .ok [("content-type", "application/json")],
            .ok [10, 11, 12], .error "Unexpected token"⟩⟩] "r1" =
      some ⟨"r1", "GET", "u", "xhr", none,
        some ⟨200, .ok [("content-type", "application/json")],
          .ok [10, 11, 12], .error "Unexpected token"⟩⟩ ∧
    getResponseHandle (fun _ => true) (fun _ => false) (fun _ => "")
        (fun l => toString l.length)
        [⟨"r1", "GET", "u", "xhr", none,
          some ⟨200, .ok [("content-type", "application/json")],
            .ok [10, 11, 12], .error "Unexpected token"⟩⟩] "r1" =
      (.result (truncateText (fun l => toString l.length) [10, 11, 12]),
        [.headers, .json, .body],
        [⟨"r1", "GET", "u", "xhr", none,
          some ⟨200, .ok [("content-type", "application/json")],
            .ok [10, 11, 12], .error "Unexpected token"⟩⟩]) := by
  refine ⟨rfl, ?_⟩
  exact C8_decode_failure_fallback (fun _ => true) (fun _ => false) (fun _ => "")
    (fun l => toString l.length)
    [⟨"r1", "GET", "u", "xhr", none,
      some ⟨200, .ok [("content-type", "application/json")],
        .ok [10, 11, 12], .error "Unexpected token"⟩⟩] "r1"
    ⟨"r1", "GET", "u", "xhr", none,
      some ⟨200, .ok [("content-type", "application/json")],
        .ok [10, 11, 12], .error "Unexpected token"⟩⟩
    ⟨200, .ok [("content-type", "application/json")],
      .ok [10, 11, 12], .error "Unexpected token"⟩
    [("content-type", "application/json")] "Unexpected token" [10, 11, 12]
    rfl rfl rfl rfl rfl rfl

/-- **C9 counterexample.** The outer catch of `getResponse.handle` embeds
the underlying `e.message` verbatim: a failure whose message has two lines
produces an error text that still contains the newline, so the reported
error does not carry "only the first line of the underlying error message".
-/
theorem C9_counterexample :
    (getResponseHandle (fun _ => true) (fun _ => false) (fun _ => "")
          (fun _ => "")
          [⟨"r1", "GET", "u", "document", none,
            some ⟨200, .error "boom\nsecond line of stack", .ok [],
              .error "x"⟩⟩] "r1").1 =
      .error "Could not retrieve body for request r1: boom\nsecond line of stack" ∧
    ("Could not retrieve body for request r1: boom\nsecond line of stack".toList.contains
        '\n') = true ∧
    "Could not retrieve body for request r1: boom\nsecond line of stack" ≠
      "Could not retrieve body for request r1: boom" := by
  exact ⟨rfl, by decide, by decide⟩

/-- **C9 (amended).** Any failure while fetching headers or body terminates
the render with a reported error that names the request identifier and
carries the underlying error message in full (which may be multi-line),
without crashing and with the ledger unchanged: this holds for a headers
fetch failure, and for a body fetch failure in the structured-fallback,
textual and image paths alike. -/
theorem C9_fetch_failure_amended (isJson isText : String → Bool)
    (serialize : Json → String) (decode : List Nat → String)
    (entries : List Exchange) (rid : String) (e : Exchange)
    (res : ExchangeResponse)
    (h1 : lookupRequest entries rid = some e)
    (h2 : e.response = some res) :
    (∀ msg, res.allHeaders = .error msg →
      getResponseHandle isJson isText serialize decode entries rid =
        (.error (fetchErrMsg rid msg), [.headers], entries)) ∧
    (∀ headers jmsg msg, res.allHeaders = .ok headers →
      isJson (getContentType headers) = true →
      res.json = .error jmsg → res.body = .error msg →
      getResponseHandle isJson isText serialize decode entries rid =
        (.error (fetchErrMsg rid msg), [.headers, .json, .body], entries)) ∧
    (∀ headers msg, res.allHeaders = .ok headers →
      isJson (getContentType headers) = false →
      isText (getContentType headers) = true →
      res.body = .error msg →
      getResponseHandle isJson isText serialize decode entries rid =
        (.error (fetchErrMsg rid msg), [.headers, .body], entries)) ∧
    (∀ headers msg, res.allHeaders = .ok headers →
      isJson (getContentType headers) = false →
      isText (getContentType headers) = false →
      (getContentType headers).startsWith "image/" = true →
      res.body = .error msg →
      getResponseHandle isJson isText serialize decode entries rid =
        (.error (fetchErrMsg rid msg), [.headers, .body], entries)) := by
  refine ⟨?_, ?_, ?_, ?_⟩
  · intro msg h3
    simp [getResponseHandle, h1, h2, h3]
  · intro headers jmsg msg h3 h4 h5 h6
    simp [getResponseHandle, h1, h2, h3, h4, h5, h6]
  · intro headers msg h3 h4 h5 h6
    simp [getResponseHandle, h1, h2, h3, h4, h5, h6]
  · intro headers msg h3 h4 h5 h6 h7
    simp [getResponseHandle, h1, h2, h3, h4, h5, h6, h7]

/-- **C9 amended witness.** A concrete headers-fetch failure with a
two-line message: the full message is reported, prefixed by the request
identifier, with the ledger unchanged. -/
theorem C9_fetch_failure_amended_witness :
    lookupRequest
        [⟨"r2", "GET", "u", "document", none,
          some ⟨200, .error "net::ERR_FAILED\nat fetch", .ok [], .error "x"⟩⟩]
        "r2" =
      some ⟨"r2", "GET", "u", "document", none,
        some ⟨200, .error "net::ERR_FAILED\nat fetch", .ok [], .error "x"⟩⟩ ∧
    getResponseHandle (fun _ => true) (fun _ => false) (fun _ => "") (fun _ => "")
        [⟨"r2", "GET", "u", "document", none,
          some ⟨200, .error "net::ERR_FAILED\nat fetch", .ok [], .error "x"⟩⟩]
        "r2" =
      (.error (fetchErrMsg "r2" "net::ERR_FAILED\nat fetch"), [.headers],
        [⟨"r2", "GET", "u", "document", none,
          some ⟨200, .error "net::ERR_FAILED\nat fetch", .ok [], .error "x"⟩⟩]) := by
  refine ⟨rfl, ?_⟩
  exact (C9_fetch_failure_amended (fun _ => true) (fun _ => false) (fun _ => "")
    (fun _ => "")
    [⟨"r2", "GET", "u", "document", none,
      some ⟨200, .error "net::ERR_FAILED\nat fetch", .ok [], .error "x"⟩⟩] "r2"
    ⟨"r2", "GET", "u", "document", none,
      some ⟨200, .error "net::ERR_FAILED\nat fetch", .ok [], .error "x"⟩⟩
    ⟨200, .error "net::ERR_FAILED\nat fetch", .ok [], .error "x"⟩
    rfl rfl).1 "net::ERR_FAILED\nat fetch" rfl

end NetworkTools
